import Mathlib

/-!
Verification of `determine_pypy_version.py`.

The program runs (module level, in order):

  m = re.search(r"PyPy (\S+)", sys.version)
  if not m:
      exit(1)
  version = m.group(1)
  if version == "7.3.16":
      print("Hello World!")
  else:
      print(":(")

We embed the program as a pure function from the interpreter's version
string to the pair (lines printed on stdout, exit status).  The regex
`PyPy (\S+)` is embedded directly: the literal word `PyPy`, a literal
single ASCII space, then a greedy capture of one or more non-whitespace
characters; `re.search` scans positions left to right and stops at the
first (leftmost) position where the pattern matches.
-/

namespace DeterminePypyVersion

/-- Python's `\s` character class for `str` patterns (default Unicode
mode): the ASCII whitespace characters together with the other Unicode
whitespace characters CPython's regex engine recognises. -/
def isPySpace (c : Char) : Bool :=
  c == ' ' || c == '\t' || c == '\n' || c == '\x0b' || c == '\x0c' ||
  c == '\r' || c == '\x1c' || c == '\x1d' || c == '\x1e' || c == '\x1f' ||
  c == '\x85' || c == '\xa0' || c == '\u1680' ||
  ('\u2000' ≤ c && c ≤ '\u200a') ||
  c == '\u2028' || c == '\u2029' || c == '\u202f' || c == '\u205f' ||
  c == '\u3000'

/-- The expected version constant of the script (`"7.3.16"`). -/
def expectedVersion : String := "7.3.16"

/-- Attempt to match the regex `PyPy (\S+)` anchored at the head of the
list: the four literal characters `PyPy`, a literal single space, then a
greedy, non-empty run of non-whitespace characters, which is the capture
group.  Returns the captured run, or `none` if the pattern does not
match here. -/
def matchHere : List Char → Option (List Char)
  | 'P' :: 'y' :: 'P' :: 'y' :: ' ' :: rest =>
      let t := rest.takeWhile (fun c => !isPySpace c)
      if t.isEmpty then none else some t
  | _ => none

/-- Embedding of `re.search(r"PyPy (\S+)", s)`: scan the string left to
right and return the capture group of the first position at which the
pattern matches, or `none` when no position matches. -/
def reSearch : List Char → Option (List Char)
  | [] => none
  | c :: rest =>
      match matchHere (c :: rest) with
      | some t => some t
      | none => reSearch rest

/-- The observable outcome of one run of the script: the lines written
to standard output, in order, and the process exit status. -/
structure RunResult where
  stdout : List String
  exitCode : Nat
deriving DecidableEq, Repr

/-- Embedding of the whole script as a function of `sys.version`.  If
the search fails the script calls `exit(1)` having printed nothing;
otherwise it compares the captured group with `"7.3.16"` and prints
either `"Hello World!"` or `":("`, finishing with exit status 0. -/
def determinePypyVersion (version : String) : RunResult :=
  match reSearch version.data with
  | none => { stdout := [], exitCode := 1 }
  | some tok =>
      if tok = expectedVersion.data then
        { stdout := ["Hello World!"], exitCode := 0 }
      else
        { stdout := [":("], exitCode := 0 }

/-- The occurrence predicate used by claim C5: the pattern list `pat`
occurs in `s` starting at index `i`. -/
def containsAt (s pat : List Char) (i : Nat) : Bool :=
  (s.drop i).take pat.length = pat

/-- Formalisation of the hypothesis of claim C4 exactly as worded there:
at index `i` the string has the word `PyPy`, then one whitespace
character of any kind (not necessarily the ASCII space), then a
non-empty non-whitespace run. -/
def pypyAnyWhitespaceAt (s : List Char) (i : Nat) : Bool :=
  (s.drop i).take 4 = "PyPy".data &&
  (match s.drop (i + 4) with
   | c :: rest => isPySpace c && !(rest.takeWhile (fun d => !isPySpace d)).isEmpty
   | [] => false)

theorem matchHere_nil : matchHere [] = none := rfl

theorem reSearch_cons (c : Char) (rest : List Char) :
    reSearch (c :: rest) =
      match matchHere (c :: rest) with
      | some t => some t
      | none => reSearch rest := rfl

/-- The scan returns the capture of the leftmost matching position: if
the pattern matches at index `i` and at no earlier index, `reSearch`
returns exactly that capture. -/
theorem reSearch_of_leftmost :
    ∀ (i : Nat) (s t : List Char),
      matchHere (s.drop i) = some t →
      (∀ j, j < i → matchHere (s.drop j) = none) →
      reSearch s = some t := by
  intro i
  induction i with
  | zero =>
      intro s t hm _
      cases s with
      | nil => rw [List.drop_nil, matchHere_nil] at hm; cases hm
      | cons c rest =>
          rw [List.drop_zero] at hm
          rw [reSearch_cons, hm]
  | succ i ih =>
      intro s t hm hl
      cases s with
      | nil => rw [List.drop_nil, matchHere_nil] at hm; cases hm
      | cons c rest =>
          have h0 : matchHere (c :: rest) = none := by
            have h := hl 0 (Nat.succ_pos i)
            rwa [List.drop_zero] at h
          rw [reSearch_cons, h0]
          apply ih rest t
          · rwa [List.drop_succ_cons] at hm
          · intro j hj
            have h := hl (j + 1) (Nat.succ_lt_succ hj)
            rwa [List.drop_succ_cons] at h

/-- The scan fails exactly when the pattern matches at no index. -/
theorem reSearch_none_iff :
    ∀ s : List Char, reSearch s = none ↔ ∀ i, matchHere (s.drop i) = none := by
  intro s
  induction s with
  | nil =>
      constructor
      · intro _ i; rw [List.drop_nil, matchHere_nil]
      · intro _; rfl
  | cons c rest ih =>
      constructor
      · intro h i
        rw [reSearch_cons] at h
        cases hmc : matchHere (c :: rest) with
        | some t => rw [hmc] at h; cases h
        | none =>
            rw [hmc] at h
            cases i with
            | zero => rwa [List.drop_zero]
            | succ i => rw [List.drop_succ_cons]; exact (ih.mp h) i
      · intro h
        have h0 : matchHere (c :: rest) = none := by
          have h0 := h 0
          rwa [List.drop_zero] at h0
        rw [reSearch_cons, h0]
        exact ih.mpr (fun i => by
          have hi := h (i + 1)
          rwa [List.drop_succ_cons] at hi)

/-- When the search fails, the script prints nothing and exits with 1. -/
theorem determine_eq_of_none {s : String} (h : reSearch s.data = none) :
    determinePypyVersion s = { stdout := [], exitCode := 1 } := by
  unfold determinePypyVersion
  rw [h]

/-- When the search succeeds with capture `t`, the script prints the
success phrase when `t` equals the constant and the sad face otherwise,
always exiting with 0. -/
theorem determine_eq_of_some {s : String} {t : List Char}
    (h : reSearch s.data = some t) :
    determinePypyVersion s =
      if t = expectedVersion.data then
        { stdout := ["Hello World!"], exitCode := 0 }
      else
        { stdout := [":("], exitCode := 0 } := by
  unfold determinePypyVersion
  rw [h]

/-- A match somewhere implies the search does not fail. -/
theorem reSearch_ne_none_of_match {s : List Char} {i : Nat} {t : List Char}
    (hm : matchHere (s.drop i) = some t) : reSearch s ≠ none := by
  intro hn
  have h := (reSearch_none_iff s).mp hn i
  rw [h] at hm
  cases hm

/-- Claim C1, counterexample: the string `"PyPy 7.3.17 PyPy 7.3.16"`
contains the word `PyPy` followed by a single space and a maximal
non-whitespace run equal to `7.3.16` (at index 12), yet the program
does not print the success phrase, because the leftmost occurrence
captures `7.3.17`. -/
theorem claim1_counterexample :
    matchHere (("PyPy 7.3.17 PyPy 7.3.16" : String).data.drop 12) =
      some expectedVersion.data
    ∧ determinePypyVersion "PyPy 7.3.17 PyPy 7.3.16" ≠
        { stdout := ["Hello World!"], exitCode := 0 } := by
  decide

/-- Claim C1, amended: for every version string whose leftmost
occurrence of the pattern (`PyPy`, a single space, a maximal
non-whitespace run) captures exactly `7.3.16`, the program writes the
single line `Hello World!` and exits with status 0. -/
theorem claim1_theorem (s : String) (i : Nat)
    (hm : matchHere (s.data.drop i) = some expectedVersion.data)
    (hl : ∀ j, j < i → matchHere (s.data.drop j) = none) :
    determinePypyVersion s = { stdout := ["Hello World!"], exitCode := 0 } := by
  have hr := reSearch_of_leftmost i s.data expectedVersion.data hm hl
  rw [determine_eq_of_some hr, if_pos rfl]

/-- Claim C1, witness: the amended theorem applied to the concrete
input `"PyPy 7.3.16"`. -/
theorem claim1_witness :
    determinePypyVersion "PyPy 7.3.16" =
      { stdout := ["Hello World!"], exitCode := 0 } :=
  claim1_theorem "PyPy 7.3.16" 0 (by decide)
    (fun j hj => absurd hj (Nat.not_lt_zero j))

/-- Claim C2: for every version string whose first (leftmost) match of
the pattern captures a maximal non-whitespace run different from
`7.3.16`, the program writes the single line `:(` and exits with
status 0. -/
theorem claim2_theorem (s : String) (i : Nat) (t : List Char)
    (hm : matchHere (s.data.drop i) = some t)
    (hl : ∀ j, j < i → matchHere (s.data.drop j) = none)
    (hne : t ≠ expectedVersion.data) :
    determinePypyVersion s = { stdout := [":("], exitCode := 0 } := by
  have hr := reSearch_of_leftmost i s.data t hm hl
  rw [determine_eq_of_some hr, if_neg hne]

/-- Claim C2, witness: the theorem applied to the concrete input
`"PyPy 7.3.17"`. -/
theorem claim2_witness :
    determinePypyVersion "PyPy 7.3.17" = { stdout := [":("], exitCode := 0 } :=
  claim2_theorem "PyPy 7.3.17" 0 ("7.3.17" : String).data (by decide)
    (fun j hj => absurd hj (Nat.not_lt_zero j)) (by decide)

/-- Claim C3: for every version string in which the pattern matches at
no position, the program writes nothing to standard output and
terminates with a non-zero exit status. -/
theorem claim3_theorem (s : String)
    (h : ∀ i, i < s.data.length → matchHere (s.data.drop i) = none) :
    (determinePypyVersion s).stdout = []
    ∧ (determinePypyVersion s).exitCode ≠ 0 := by
  have hall : ∀ i, matchHere (s.data.drop i) = none := by
    intro i
    by_cases hi : i < s.data.length
    · exact h i hi
    · have hd : s.data.drop i = [] :=
        List.drop_eq_nil_of_le (Nat.le_of_not_lt hi)
      rw [hd, matchHere_nil]
  rw [determine_eq_of_none ((reSearch_none_iff s.data).mpr hall)]
  exact ⟨rfl, Nat.one_ne_zero⟩

/-- Claim C3, witness: the theorem applied to the concrete input
`"CPython 3.11.4"`, which contains no occurrence of the pattern. -/
theorem claim3_witness :
    (determinePypyVersion "CPython 3.11.4").stdout = []
    ∧ (determinePypyVersion "CPython 3.11.4").exitCode ≠ 0 :=
  claim3_theorem "CPython 3.11.4" (by decide)

/-- Claim C4, counterexample: in `"PyPy\t7.3.16"` the word `PyPy` is
followed by a whitespace character (a tab) and then a non-whitespace
run, yet the search finds no match and the program exits with status 1
printing nothing: the regex requires a literal single ASCII space. -/
theorem claim4_counterexample :
    pypyAnyWhitespaceAt ("PyPy\t7.3.16" : String).data 0 = true
    ∧ determinePypyVersion "PyPy\t7.3.16" = { stdout := [], exitCode := 1 } := by
  decide

/-- Claim C4, amended: for every version string in which the word
`PyPy` is followed by a single ASCII space and then a non-whitespace
run, the search finds a match and the program reaches a printing
branch: it exits with status 0 after writing a line. -/
theorem claim4_theorem (s : String) (i : Nat) (t : List Char)
    (hm : matchHere (s.data.drop i) = some t) :
    reSearch s.data ≠ none
    ∧ (determinePypyVersion s).exitCode = 0
    ∧ (determinePypyVersion s).stdout ≠ [] := by
  have hne := reSearch_ne_none_of_match hm
  refine ⟨hne, ?_⟩
  cases hr : reSearch s.data with
  | none => exact absurd hr hne
  | some u =>
      rw [determine_eq_of_some hr]
      by_cases hu : u = expectedVersion.data
      · rw [if_pos hu]
        exact ⟨rfl, by simp⟩
      · rw [if_neg hu]
        exact ⟨rfl, by simp⟩

/-- Claim C4, witness: the amended theorem applied to the concrete
input `"PyPy 7.3.16"`. -/
theorem claim4_witness :
    reSearch ("PyPy 7.3.16" : String).data ≠ none
    ∧ (determinePypyVersion "PyPy 7.3.16").exitCode = 0
    ∧ (determinePypyVersion "PyPy 7.3.16").stdout ≠ [] :=
  claim4_theorem "PyPy 7.3.16" 0 expectedVersion.data (by decide)

/-- Claim C5, counterexample: the string
`"PyPy 7.3.16 PyPy 7.3.16-custom"` contains `"PyPy 7.3.16-custom"`
(at index 12), yet the program prints `Hello World!` and not `:(`,
because the leftmost occurrence captures exactly `7.3.16`. -/
theorem claim5_counterexample :
    containsAt ("PyPy 7.3.16 PyPy 7.3.16-custom" : String).data
      ("PyPy 7.3.16-custom" : String).data 12 = true
    ∧ determinePypyVersion "PyPy 7.3.16 PyPy 7.3.16-custom" =
        { stdout := ["Hello World!"], exitCode := 0 } := by
  decide

/-- Claim C5, amended: for every version string whose leftmost match of
the pattern captures the maximal non-whitespace run `7.3.16-custom`,
the captured token is `7.3.16-custom`, the exact equality comparison
with `7.3.16` fails even though `7.3.16` is a prefix of the token, and
the program prints `:(` and exits with status 0. -/
theorem claim5_theorem (s : String) (i : Nat)
    (hm : matchHere (s.data.drop i) = some ("7.3.16-custom" : String).data)
    (hl : ∀ j, j < i → matchHere (s.data.drop j) = none) :
    reSearch s.data = some ("7.3.16-custom" : String).data
    ∧ determinePypyVersion s = { stdout := [":("], exitCode := 0 } := by
  have hr := reSearch_of_leftmost i s.data ("7.3.16-custom" : String).data hm hl
  refine ⟨hr, ?_⟩
  rw [determine_eq_of_some hr, if_neg (by decide)]

/-- Claim C5, witness: the amended theorem applied to the concrete
input `"PyPy 7.3.16-custom"`. -/
theorem claim5_witness :
    reSearch ("PyPy 7.3.16-custom" : String).data =
      some ("7.3.16-custom" : String).data
    ∧ determinePypyVersion "PyPy 7.3.16-custom" =
        { stdout := [":("], exitCode := 0 } :=
  claim5_theorem "PyPy 7.3.16-custom" 0 (by decide)
    (fun j hj => absurd hj (Nat.not_lt_zero j))

/-- Claim C6: absence of the pattern and presence-with-mismatch are
distinct outcomes: the exit status is non-zero exactly when the search
fails, which happens exactly when nothing is printed; and a match whose
capture differs from the constant always yields the printed line `:(`
together with exit status 0. -/
theorem claim6_theorem (s : String) :
    ((determinePypyVersion s).exitCode ≠ 0 ↔ reSearch s.data = none)
    ∧ ((determinePypyVersion s).exitCode ≠ 0 ↔ (determinePypyVersion s).stdout = [])
    ∧ (∀ t, reSearch s.data = some t → t ≠ expectedVersion.data →
        (determinePypyVersion s).stdout = [":("]
        ∧ (determinePypyVersion s).exitCode = 0) := by
  cases hr : reSearch s.data with
  | none =>
      rw [determine_eq_of_none hr]
      refine ⟨by simp, by simp, ?_⟩
      intro t ht
      cases ht
  | some u =>
      rw [determine_eq_of_some hr]
      by_cases hu : u = expectedVersion.data
      · rw [if_pos hu]
        refine ⟨by simp, by simp, ?_⟩
        intro t ht hne
        injection ht with h1
        rw [← h1] at hne
        exact absurd hu hne
      · rw [if_neg hu]
        refine ⟨by simp, by simp, ?_⟩
        intro t ht hne
        exact ⟨rfl, rfl⟩

/-- Claim C6, witness: the mismatch component of the theorem applied to
the concrete input `"PyPy 7.3.17"`. -/
theorem claim6_witness :
    (determinePypyVersion "PyPy 7.3.17").stdout = [":("]
    ∧ (determinePypyVersion "PyPy 7.3.17").exitCode = 0 := by
  have h := claim6_theorem "PyPy 7.3.17"
  exact h.2.2 ("7.3.17" : String).data (by decide) (by decide)

/-- Claim C7: the program writes at most one line to standard output:
it writes nothing exactly when the search fails, and whatever it writes
is exactly one of the two fixed phrases, never both. -/
theorem claim7_theorem (s : String) :
    (determinePypyVersion s).stdout.length ≤ 1
    ∧ ((determinePypyVersion s).stdout = [] ↔ reSearch s.data = none)
    ∧ ((determinePypyVersion s).stdout = ["Hello World!"]
        ∨ (determinePypyVersion s).stdout = [":("]
        ∨ (determinePypyVersion s).stdout = []) := by
  cases hr : reSearch s.data with
  | none =>
      rw [determine_eq_of_none hr]
      exact ⟨by simp, by simp, Or.inr (Or.inr rfl)⟩
  | some u =>
      rw [determine_eq_of_some hr]
      by_cases hu : u = expectedVersion.data
      · rw [if_pos hu]
        exact ⟨by simp, by simp, Or.inl rfl⟩
      · rw [if_neg hu]
        exact ⟨by simp, by simp, Or.inr (Or.inl rfl)⟩

/-- Claim C8: when the pattern matches at index `i` and at no earlier
index, the whole outcome of the program is determined by the capture of
that leftmost occurrence alone; later occurrences never influence the
output. -/
theorem claim8_theorem (s : String) (i : Nat) (t : List Char)
    (hm : matchHere (s.data.drop i) = some t)
    (hl : ∀ j, j < i → matchHere (s.data.drop j) = none) :
    determinePypyVersion s =
      if t = expectedVersion.data then
        { stdout := ["Hello World!"], exitCode := 0 }
      else
        { stdout := [":("], exitCode := 0 } :=
  determine_eq_of_some (reSearch_of_leftmost i s.data t hm hl)

/-- Claim C8, witness: on `"PyPy 7.3.17 PyPy 7.3.16"` the leftmost
capture `7.3.17` alone decides the outcome, even though a later
occurrence captures the expected constant. -/
theorem claim8_witness :
    determinePypyVersion "PyPy 7.3.17 PyPy 7.3.16" =
      if ("7.3.17" : String).data = expectedVersion.data then
        { stdout := ["Hello World!"], exitCode := 0 }
      else
        { stdout := [":("], exitCode := 0 } :=
  claim8_theorem "PyPy 7.3.17 PyPy 7.3.16" 0 ("7.3.17" : String).data
    (by decide) (fun j hj => absurd hj (Nat.not_lt_zero j))

/-- Claim C9: the word `PyPy` is matched as a plain substring with no
word-boundary requirement: even when the character just before the
match is non-whitespace (the word is embedded in a longer token, as in
`ExPyPy 1.0`), the search matches and the program reaches a printing
branch, exiting with status 0 after exactly one line. -/
theorem claim9_theorem (s : String) (i : Nat) (t : List Char) (c : Char)
    (hpos : 0 < i)
    (hprev : s.data[i - 1]? = some c)
    (hnws : isPySpace c = false)
    (hm : matchHere (s.data.drop i) = some t) :
    reSearch s.data ≠ none
    ∧ (determinePypyVersion s).exitCode = 0
    ∧ (determinePypyVersion s).stdout.length = 1 := by
  have hne := reSearch_ne_none_of_match hm
  refine ⟨hne, ?_⟩
  cases hr : reSearch s.data with
  | none => exact absurd hr hne
  | some u =>
      rw [determine_eq_of_some hr]
      by_cases hu : u = expectedVersion.data
      · rw [if_pos hu]
        exact ⟨rfl, rfl⟩
      · rw [if_neg hu]
        exact ⟨rfl, rfl⟩

/-- Claim C9, witness: the theorem applied to the concrete input
`"ExPyPy 1.0"`, where `PyPy ` starts at index 2 immediately after the
non-whitespace character `x`. -/
theorem claim9_witness :
    reSearch ("ExPyPy 1.0" : String).data ≠ none
    ∧ (determinePypyVersion "ExPyPy 1.0").exitCode = 0
    ∧ (determinePypyVersion "ExPyPy 1.0").stdout.length = 1 :=
  claim9_theorem "ExPyPy 1.0" 2 ("1.0" : String).data 'x'
    (by decide) (by decide) (by decide) (by decide)

/-- Claim C10: the program is deterministic in its single input: two
runs on equal version strings produce equal standard output and equal
exit status; in the embedding the whole outcome is a pure function of
the version string, so nothing else can influence it. -/
theorem claim10_theorem (s t : String) (h : s = t) :
    (determinePypyVersion s).stdout = (determinePypyVersion t).stdout
    ∧ (determinePypyVersion s).exitCode = (determinePypyVersion t).exitCode := by
  subst h
  exact ⟨rfl, rfl⟩

/-- Claim C10, witness: the theorem applied to two equal copies of the
concrete input `"PyPy 7.3.16"`. -/
theorem claim10_witness :
    (determinePypyVersion "PyPy 7.3.16").stdout =
      (determinePypyVersion "PyPy 7.3.16").stdout
    ∧ (determinePypyVersion "PyPy 7.3.16").exitCode =
      (determinePypyVersion "PyPy 7.3.16").exitCode :=
  claim10_theorem "PyPy 7.3.16" "PyPy 7.3.16" rfl

end DeterminePypyVersion
